import Mathlib

/-!
Verification of the SDS011 serial-protocol layer of sds011MQTT.py.

The protocol functions are shallowly embedded: Python byte strings become
lists of natural numbers (each intended to be < 256), Python integer
arithmetic becomes Int arithmetic (Python `%` on a positive modulus agrees
with Int.emod), the float divisions by 10.0 become exact rational
divisions, and a Python exception (assert failure, struct.error) becomes
the value `none` of an Option result.
-/

set_option autoImplicit false

/-- Command byte for set-mode (`CMD_MODE = 2` in the source). -/
def CMD_MODE : Nat := 2

/-- Command byte for query-data (`CMD_QUERY_DATA = 4`). -/
def CMD_QUERY_DATA : Nat := 4

/-- Command byte for set-device-id (`CMD_DEVICE_ID = 5`). -/
def CMD_DEVICE_ID : Nat := 5

/-- Command byte for sleep control (`CMD_SLEEP = 6`). -/
def CMD_SLEEP : Nat := 6

/-- Command byte for firmware query (`CMD_FIRMWARE = 7`). -/
def CMD_FIRMWARE : Nat := 7

/-- Command byte for working-period control (`CMD_WORKING_PERIOD = 8`). -/
def CMD_WORKING_PERIOD : Nat := 8

/-- The checksum expression of `construct_command` line 48:
`(sum(data) + cmd - 2) % 256`, computed in Python integers where `%`
always returns a value in `[0, 256)`; `Int.emod` has the same behaviour,
and the result is converted back to a natural number. -/
def checksum (cmd : Nat) (data : List Nat) : Nat :=
  (((data.sum : Int) + (cmd : Int) - 2) % 256).toNat

/-- The zero-padding statement `data += [0,] * (12-len(data))` of
`construct_command` line 47. -/
def pad12 (data : List Nat) : List Nat :=
  data ++ List.replicate (12 - data.length) 0

/-- `construct_command(cmd, data)` from the source, lines 45-55.
`assert len(data) <= 12` raising is modelled by returning `none`;
otherwise `data` is zero-padded to 12 bytes, the checksum is computed over
the padded payload, and the 19-byte wire frame
`AA B4 cmd <12 payload bytes> FF FF checksum AB` is returned. -/
def construct_command (cmd : Nat) (data : List Nat) : Option (List Nat) :=
  if data.length ≤ 12 then
    some ([0xAA, 0xB4, cmd] ++ pad12 data
      ++ [0xFF, 0xFF, checksum cmd (pad12 data), 0xAB])
  else
    none

/-- `process_data(d)` from the source, lines 57-61:
`struct.unpack('<HHxxBB', d[2:])` requires `d[2:]` to hold exactly
8 bytes (otherwise struct.error is raised, modelled as `none`); the two
`H` fields are little-endian 16-bit values at offsets 0-1 and 2-3 of
`d[2:]`, each divided by 10.0 (modelled as exact rational division). -/
def process_data (d : List Nat) : Option (ℚ × ℚ) :=
  if (d.drop 2).length = 8 then
    some ((((d.drop 2).getD 0 0 + 256 * (d.drop 2).getD 1 0 : Nat) : ℚ) / 10,
          (((d.drop 2).getD 2 0 + 256 * (d.drop 2).getD 3 0 : Nat) : ℚ) / 10)
  else
    none

/-- `process_version(d)` from the source, lines 63-65:
`struct.unpack('<BBBHBB', d[3:])` requires `d[3:]` to hold exactly
7 bytes; the fields are year, month, day (single bytes at offsets 0-2 of
`d[3:]`), a little-endian 16-bit id at offsets 3-4, and two further single
bytes. -/
def process_version (d : List Nat) : Option (Nat × Nat × Nat × Nat × Nat × Nat) :=
  if (d.drop 3).length = 7 then
    some ((d.drop 3).getD 0 0, (d.drop 3).getD 1 0, (d.drop 3).getD 2 0,
          (d.drop 3).getD 3 0 + 256 * (d.drop 3).getD 4 0,
          (d.drop 3).getD 5 0, (d.drop 3).getD 6 0)
  else
    none

/-- `read_response()` from the source, lines 67-74, over a byte stream
modelled as the list of bytes the serial port will deliver: single bytes
are read and discarded until one equals 0xAA, then 9 further bytes are
read and the 10-byte buffer (marker plus 9) is returned.  A stream that
never yields the marker, or ends before the 9 further bytes, blocks
forever in the source and is modelled as `none`. -/
def read_response : List Nat → Option (List Nat)
  | [] => none
  | b :: rest =>
    if b = 0xAA then
      if 9 ≤ rest.length then some (b :: rest.take 9) else none
    else
      read_response rest

/-- `cmd_query_data()` from the source, lines 80-86, restricted to its
response-processing part (the outbound write does not affect the result):
read a response frame, and only when byte 1 of the frame equals 0xC0
decode it with `process_data`; otherwise return the empty list. -/
def cmd_query_data (stream : List Nat) : Option (List ℚ) :=
  match read_response stream with
  | none => none
  | some d =>
    if d.getD 1 0 = 0xC0 then
      (process_data d).map (fun p => [p.1, p.2])
    else
      some []

/-- `cmd_firmware_ver()` from the source, lines 97-100, restricted to its
response-processing part: read a response frame and decode it with
`process_version`, with no tag check in between. -/
def cmd_firmware_ver (stream : List Nat) : Option (Nat × Nat × Nat × Nat × Nat × Nat) :=
  (read_response stream).bind process_version

/-- Index arithmetic for the `struct.unpack` slices: an element of
`l.drop n` at position `i` (with default) is the element of `l` at
position `n + i`. -/
theorem getD_drop (l : List Nat) (n i : Nat) :
    (l.drop n).getD i 0 = l.getD (n + i) 0 := by
  induction l generalizing n with
  | nil => simp [List.getD]
  | cons a t ih =>
    cases n with
    | zero => simp
    | succ m =>
      simp only [List.drop_succ_cons, Nat.succ_add]
      rw [ih m]
      rfl

/-- Claim C1 counterexample: the byte sequence the claim spells out has
only 18 bytes (nine 00 payload bytes); the code returns a 19-byte frame
with ten 00 payload bytes, so the serialization is not that sequence. -/
theorem construct_command_C1_cex :
    construct_command CMD_MODE [1, 1] ≠
      some [0xAA, 0xB4, 0x02, 0x01, 0x01, 0, 0, 0, 0, 0, 0, 0, 0, 0,
            0xFF, 0xFF, 2, 0xAB] := by decide

/-- Claim C1 (amended: the example frame carries ten 00 payload bytes,
19 bytes in total). -/
theorem construct_command_C1 (cmd : Nat) (data : List Nat)
    (_hcmd : cmd < 256) (_hbytes : ∀ x ∈ data, x < 256) (hlen : data.length ≤ 12) :
    construct_command cmd data =
      some ([0xAA, 0xB4, cmd] ++ (data ++ List.replicate (12 - data.length) 0)
        ++ [0xFF, 0xFF, checksum cmd (data ++ List.replicate (12 - data.length) 0), 0xAB]) ∧
    (data ++ List.replicate (12 - data.length) 0).length = 12 ∧
    (∀ frame, construct_command cmd data = some frame → frame.length = 19) ∧
    construct_command CMD_MODE [1, 1] =
      some [0xAA, 0xB4, 2, 1, 1, 0, 0, 0, 0, 0, 0, 0, 0, 0, 0,
            0xFF, 0xFF, 2, 0xAB] := by
  refine ⟨by simp [construct_command, pad12, hlen], ?_, ?_, by decide⟩
  · simp [List.length_append, List.length_replicate]
    omega
  · intro frame hframe
    simp [construct_command, pad12, hlen] at hframe
    subst hframe
    simp [List.length_append, List.length_replicate]
    omega

/-- Claim C2: the checksum of a command byte and a 12-byte payload equals
(sum + cmd - 2) mod 256, is deterministic (it is a function of its
arguments, restated here as an equivalent closed form in Nat), lies below
256, and matches the reference value 2 for the set-mode example frame. -/
theorem checksum_C2 (cmd : Nat) (data : List Nat)
    (_hcmd : cmd < 256) (_hlen : data.length = 12) (_hbytes : ∀ x ∈ data, x < 256) :
    checksum cmd data < 256 ∧
    (checksum cmd data : Int) % 256 = ((data.sum : Int) + (cmd : Int) - 2) % 256 ∧
    checksum cmd data = (data.sum + cmd + 254) % 256 ∧
    checksum CMD_MODE [1, 1, 0, 0, 0, 0, 0, 0, 0, 0, 0, 0] = 2 := by
  refine ⟨?_, ?_, ?_, by decide⟩ <;> simp only [checksum] <;> omega

/-- Claim C10: zero-padding changes neither the checksum nor the frame,
and the default-payload frame has checksum (cmd - 2) mod 256, written in
Nat as (cmd + 254) mod 256. -/
theorem construct_command_C10 (cmd : Nat) (data : List Nat) (h : data.length ≤ 12) :
    checksum cmd (data ++ List.replicate (12 - data.length) 0) = checksum cmd data ∧
    construct_command cmd data
      = construct_command cmd (data ++ List.replicate (12 - data.length) 0) ∧
    construct_command cmd [] = construct_command cmd (List.replicate 12 0) ∧
    checksum cmd [] = (cmd + 254) % 256 := by
  have hpad : (data ++ List.replicate (12 - data.length) 0).length = 12 := by
    simp [List.length_append, List.length_replicate]
    omega
  refine ⟨?_, ?_, ?_, ?_⟩
  · simp [checksum, List.sum_append, List.sum_replicate]
  · simp [construct_command, pad12, h, hpad]
  · simp [construct_command, pad12]
  · simp [checksum]
    omega

/-- Claim C3: the reader discards any finite prefix of non-marker bytes
and returns the 10 bytes starting at the first 0xAA marker. -/
theorem read_response_C3 (pre rest : List Nat)
    (hpre : ∀ x ∈ pre, x ≠ 0xAA) (hrest : 9 ≤ rest.length) :
    read_response (pre ++ 0xAA :: rest) = some (0xAA :: rest.take 9) ∧
    (0xAA :: rest.take 9).length = 10 := by
  constructor
  · induction pre with
    | nil => simp [read_response, hrest]
    | cons a l ih =>
      have ha : a ≠ 0xAA := hpre a (List.mem_cons_self a l)
      simpa [read_response, ha] using ih (fun x hx => hpre x (List.mem_cons_of_mem a hx))
  · simp [List.length_take]
    omega

/-- Claim C4 counterexample: the literal reply the claim quotes,
AA C0 40 01 74 00 05 97 AB, is only 9 bytes long; struct.unpack needs
8 bytes after the 2-byte skip and therefore raises, so decoding fails
instead of yielding the values 32.0 and 11.6. -/
theorem process_data_C4_cex :
    process_data [0xAA, 0xC0, 0x40, 0x01, 0x74, 0x00, 0x05, 0x97, 0xAB] = none ∧
    process_data [0xAA, 0xC0, 0x40, 0x01, 0x74, 0x00, 0x05, 0x97, 0xAB] ≠
      some ((32 : ℚ), (58 / 5 : ℚ)) := by
  constructor
  · decide
  · intro h
    simp [process_data] at h

/-- Claim C4 (amended: the quoted reply extended to its full 10-byte form
AA C0 40 01 74 00 05 97 51 AB): bytes 2-3 are the little-endian PM2.5 raw
value and bytes 4-5 the PM10 raw value, each divided by 10, giving
32.0 and 11.6 on the example frame. -/
theorem process_data_C4 (d : List Nat) (h : d.length = 10) :
    process_data d = some (((d.getD 2 0 + 256 * d.getD 3 0 : Nat) : ℚ) / 10,
                           ((d.getD 4 0 + 256 * d.getD 5 0 : Nat) : ℚ) / 10) ∧
    process_data [0xAA, 0xC0, 0x40, 0x01, 0x74, 0x00, 0x05, 0x97, 0x51, 0xAB] =
      some ((32 : ℚ), (58 / 5 : ℚ)) := by
  constructor
  · simp only [process_data, List.length_drop, h, getD_drop]
    norm_num
  · simp only [process_data]
    norm_num

/-- Claim C5: the query-data driver treats a response whose byte 1 is not
0xC0 as no sample this round, returning the empty list rather than
failing, and any non-empty result can only arise from a 0xC0-tagged
frame. -/
theorem cmd_query_data_C5 (stream d : List Nat)
    (hread : read_response stream = some d) :
    (d.getD 1 0 ≠ 0xC0 → cmd_query_data stream = some []) ∧
    (∀ q, cmd_query_data stream = some q → q ≠ [] → d.getD 1 0 = 0xC0) := by
  have hq : cmd_query_data stream =
      if d.getD 1 0 = 0xC0 then (process_data d).map (fun p => [p.1, p.2])
      else some [] := by
    unfold cmd_query_data
    rw [hread]
  constructor
  · intro htag
    rw [hq, if_neg htag]
  · intro q hsome hne
    by_contra htag
    rw [hq, if_neg htag] at hsome
    injection hsome with h
    exact hne h.symm

/-- Claim C6 counterexample: a 10-byte frame whose tag byte is 0x00,
not 0xC0, is still decoded by process_data into a measurement sample;
the function performs no tag check and does not fail. -/
theorem process_data_C6_cex :
    process_data [0xAA, 0x00, 0x40, 0x01, 0x74, 0x00, 0x05, 0x97, 0x51, 0xAB] =
      some ((32 : ℚ), (58 / 5 : ℚ)) := by
  simp only [process_data]
  norm_num

/-- Claim C6 (amended): the codec-level decoder process_data performs no
tag check at all; on any 10-byte frame it succeeds regardless of the tag
byte, and the tag dispatch happens only in cmd_query_data. -/
theorem process_data_C6 (d : List Nat) (hlen : d.length = 10)
    (_htag : d.getD 1 0 ≠ 0xC0) :
    (process_data d).isSome := by
  simp [process_data, List.length_drop, hlen]

/-- Claim C7: a payload of more than 12 bytes makes construct_command
fail (the assert raises) instead of building a frame. -/
theorem construct_command_C7 (cmd : Nat) (data : List Nat) (h : 12 < data.length) :
    construct_command cmd data = none := by
  unfold construct_command
  rw [if_neg (by omega)]

/-- Claim C8 counterexample: a frame whose tag byte (body offset 0) is
0x00, not the firmware tag, decodes without failing, and the year field
25 = 0x19 is the byte at frame offset 3 (body offset 2), while body
offset 1 holds 7. -/
theorem process_version_C8_cex :
    process_version [0xAA, 0x00, 0x07, 0x19, 0x0B, 0x14, 0x01, 0x02, 0x51, 0xAB] =
      some (25, 11, 20, 513, 81, 171) := by decide

/-- Claim C8 (amended): process_version performs no tag check; on every
10-byte frame it succeeds and parses year, month, day as the single bytes
at frame offsets 3-5 (body offsets 2-4), then a little-endian id and two
trailing bytes. -/
theorem process_version_C8 (d : List Nat) (hlen : d.length = 10) :
    process_version d = some (d.getD 3 0, d.getD 4 0, d.getD 5 0,
      d.getD 6 0 + 256 * d.getD 7 0, d.getD 8 0, d.getD 9 0) := by
  simp only [process_version, List.length_drop, hlen, getD_drop]
  norm_num

/-- Claim C9: process_data succeeds exactly on inputs of length 10, since
the struct format requires precisely 8 bytes after dropping the first
two. -/
theorem process_data_C9 (d : List Nat) :
    (process_data d).isSome ↔ d.length = 10 := by
  by_cases h : (d.drop 2).length = 8
  · simp only [process_data, h, if_pos]
    simp only [List.length_drop] at h
    simp
    omega
  · simp only [process_data, h, if_neg]
    simp only [List.length_drop] at h
    simp
    omega

/-- Witness for claim C1 at the set-mode example. -/
theorem construct_command_C1_wit :
    construct_command CMD_MODE [1, 1] =
      some [0xAA, 0xB4, 2, 1, 1, 0, 0, 0, 0, 0, 0, 0, 0, 0, 0, 0xFF, 0xFF, 2, 0xAB] :=
  (construct_command_C1 CMD_MODE [1, 1] (by decide) (by decide) (by decide)).2.2.2

/-- Witness for claim C2 at the set-mode example payload. -/
theorem checksum_C2_wit :
    checksum CMD_MODE [1, 1, 0, 0, 0, 0, 0, 0, 0, 0, 0, 0] < 256 ∧
    checksum CMD_MODE [1, 1, 0, 0, 0, 0, 0, 0, 0, 0, 0, 0] = 2 :=
  ⟨(checksum_C2 CMD_MODE [1, 1, 0, 0, 0, 0, 0, 0, 0, 0, 0, 0]
      (by decide) (by decide) (by decide)).1,
   (checksum_C2 CMD_MODE [1, 1, 0, 0, 0, 0, 0, 0, 0, 0, 0, 0]
      (by decide) (by decide) (by decide)).2.2.2⟩

/-- Witness for claim C3 on the spec example stream with garbage bytes
0x5A and 0x00 before the marker. -/
theorem read_response_C3_wit :
    read_response ([0x5A, 0x00] ++ 0xAA :: [1, 2, 3, 4, 5, 6, 7, 8, 9]) =
      some (0xAA :: List.take 9 [1, 2, 3, 4, 5, 6, 7, 8, 9]) :=
  (read_response_C3 [0x5A, 0x00] [1, 2, 3, 4, 5, 6, 7, 8, 9]
      (by decide) (by decide)).1

/-- Witness for claim C4 at the completed 10-byte example reply. -/
theorem process_data_C4_wit :
    process_data [0xAA, 0xC0, 0x40, 0x01, 0x74, 0x00, 0x05, 0x97, 0x51, 0xAB] =
      some ((32 : ℚ), (58 / 5 : ℚ)) :=
  (process_data_C4 [0xAA, 0xC0, 0x40, 0x01, 0x74, 0x00, 0x05, 0x97, 0x51, 0xAB]
      (by decide)).2

/-- Witness for claim C5 on a stream whose frame carries tag 0x00. -/
theorem cmd_query_data_C5_wit :
    cmd_query_data [0xAA, 0, 1, 2, 3, 4, 5, 6, 7, 8] = some [] :=
  (cmd_query_data_C5 [0xAA, 0, 1, 2, 3, 4, 5, 6, 7, 8]
      [0xAA, 0, 1, 2, 3, 4, 5, 6, 7, 8] (by decide)).1 (by decide)

/-- Witness for claim C6 on a 10-byte frame with tag 0x01. -/
theorem process_data_C6_wit :
    (process_data [0xAA, 1, 0, 0, 0, 0, 0, 0, 0, 0]).isSome :=
  process_data_C6 [0xAA, 1, 0, 0, 0, 0, 0, 0, 0, 0] (by decide) (by decide)

/-- Witness for claim C7 at a 13-byte payload of zeros. -/
theorem construct_command_C7_wit :
    construct_command CMD_MODE [0, 0, 0, 0, 0, 0, 0, 0, 0, 0, 0, 0, 0] = none :=
  construct_command_C7 CMD_MODE [0, 0, 0, 0, 0, 0, 0, 0, 0, 0, 0, 0, 0] (by decide)

/-- Witness for claim C8 at a correctly tagged firmware reply frame. -/
theorem process_version_C8_wit :
    process_version [0xAA, 0xC5, 0x07, 0x19, 0x0B, 0x14, 0x01, 0x02, 0x51, 0xAB] =
      some (25, 11, 20, 513, 81, 171) := by
  simpa using process_version_C8
    [0xAA, 0xC5, 0x07, 0x19, 0x0B, 0x14, 0x01, 0x02, 0x51, 0xAB] (by decide)

/-- Witness for claim C10 at the sleep command with a 2-byte payload. -/
theorem construct_command_C10_wit :
    construct_command CMD_SLEEP [1, 0] =
      construct_command CMD_SLEEP [1, 0, 0, 0, 0, 0, 0, 0, 0, 0, 0, 0] :=
  (construct_command_C10 CMD_SLEEP [1, 0] (by decide)).2.1
